import Mathlib

/-!
Shallow embedding of the booking consistency engine of the
appointment-booking service (src/backend/src/services/appointmentService.ts,
duplicated in the unnamed service variant).

Modelling conventions:
* A time instant is an `Int`, the number of milliseconds since the epoch
  (the value of JavaScript `Date.getTime()`).  The system is modelled in a
  single time zone (UTC), so the local-time accessors of the duplicated
  service variant coincide with the UTC accessors used by the backend
  variant.
* The MongoDB appointment collection is a `List Appointment`; the query
  `findOne` is `List.find?`, `find` is `List.filter`, `create` appends,
  `save` replaces the row with the same `_id`.
* Thrown `Error` subclasses become an `Except ServiceError` result.
  Stateful methods return the resulting collection next to the result, so
  an aborted operation is one that returns the collection unchanged.
* The `while` loop of `generateTimeSlots` is embedded with explicit fuel;
  `none` marks fuel exhaustion, i.e. an execution that has not terminated
  within the given number of iterations.
* The 30-second TTL `BookingLock` of the backend variant and the MongoDB
  transaction machinery only matter under true concurrency; the sequential
  semantics modelled here runs each `book()` call atomically (acquire lock,
  check, insert, release), which is the behaviour of the source for any one
  call executed in isolation.
-/

/-- Appointment status: the source stores the strings BOOKED / CANCELLED. -/
inductive Status where
  | BOOKED
  | CANCELLED
deriving DecidableEq, Repr

/-- One row of the appointment collection.  `stop` is the source field
`end` (a Lean keyword).  The free-text `reason` and the created/updated
timestamps play no role in any modelled operation and are omitted. -/
structure Appointment where
  id : Nat
  doctorId : Nat
  patientId : Nat
  start : Int
  stop : Int
  status : Status
deriving DecidableEq, Repr

/-- The appointment collection. -/
abbrev Store := List Appointment

/-- Errors thrown by the service: `ValidationError`,
`AppointmentBookingError`, and the plain `Error` used by
`cancelAppointment`, each carrying the source message string. -/
inductive ServiceError where
  | validationError (message : String)
  | appointmentBookingError (message : String)
  | plainError (message : String)
deriving DecidableEq, Repr

/-- A derived availability slot (interface `TimeSlot`); `stop` is the
source field `end`. -/
structure TimeSlot where
  start : Int
  stop : Int
deriving DecidableEq, Repr

/-- Milliseconds since the last UTC midnight, as `Date` accessors compute
it (floor semantics, always in `[0, 86400000)`). -/
def msOfDay (t : Int) : Int := t % 86400000

/-- The instant of the UTC midnight starting the calendar day of `t`;
two instants are on the same calendar day (`toDateString` equality in the
single-zone model) iff their `dayStart`s agree.  `setHours(h, 0, 0, 0)`
yields `dayStart t + h * 3600000`. -/
def dayStart (t : Int) : Int := t - msOfDay t

/-- JavaScript `getUTCHours`. -/
def hourOf (t : Int) : Int := msOfDay t / 3600000

/-- JavaScript `getUTCMinutes`. -/
def minuteOf (t : Int) : Int := t % 3600000 / 60000

/-- Minutes since midnight of the instant `t`, i.e.
`hourOf t * 60 + minuteOf t`; the resolution at which the working-hours
validator sees an instant. -/
def minuteOfDay (t : Int) : Int := msOfDay t / 60000

/-- JavaScript `new Date(t).setHours(h, 0, 0, 0)` in the single-zone
model: the instant of hour `h` on the calendar day of `t`. -/
def setHoursZero (t h : Int) : Int := dayStart t + h * 3600000

/-- Source `validateAppointmentTimes`: `start < end` and same calendar
day, else a `ValidationError`. -/
def validateAppointmentTimes (start stop : Int) : Except ServiceError Unit :=
  if start ≥ stop then
    .error (.validationError ("Start time must be before end time"))
  else if dayStart start ≠ dayStart stop then
    .error (.validationError ("Appointments must be within the same day"))
  else
    .ok ()

/-- Source `validateWorkingHours`, with the configured clinic opening and
closing hours (`CLINIC_START_HOUR` / `CLINIC_END_HOUR`, defaults 9 and 17)
as parameters.  Note that the source compares only the hour and minute
components of the instants, and that its `startMinutes < 0` disjunct can
never hold. -/
def validateWorkingHours (clinicStart clinicEnd : Int) (start stop : Int) :
    Except ServiceError Unit :=
  let startHour := hourOf start
  let startMinutes := minuteOf start
  let endHour := hourOf stop
  let endMinutes := minuteOf stop
  if startHour < clinicStart ∨ (startHour = clinicStart ∧ startMinutes < 0) then
    .error (.validationError
      (("Appointments cannot start before ") ++ toString clinicStart ++ (":00")))
  else if endHour > clinicEnd ∨ (endHour = clinicEnd ∧ endMinutes > 0) then
    .error (.validationError
      (("Appointments cannot end after ") ++ toString clinicEnd ++ (":00")))
  else
    .ok ()

/-- Source `validateNotInPast`: rejects `start < now`, where `now` is the
clock reading (`new Date()`) taken inside the validator. -/
def validateNotInPast (start : Int) (now : Int) : Except ServiceError Unit :=
  if start < now then
    .error (.validationError ("Cannot book appointments in the past"))
  else
    .ok ()

/-- Source `slotsOverlap`: `start1 < end2 && start2 < end1`. -/
def slotsOverlap (start1 stop1 start2 stop2 : Int) : Bool :=
  decide (start1 < stop2) && decide (start2 < stop1)

/-- Source `checkOverlap`: the `findOne` query for a `BOOKED` row of the
doctor satisfying `start < end` of the request and `end > start` of the
request. -/
def checkOverlap (doctorId : Nat) (start stop : Int) (s : Store) :
    Option Appointment :=
  s.find? fun a =>
    decide (a.doctorId = doctorId) && decide (a.status = Status.BOOKED) &&
      decide (a.start < stop) && decide (a.stop > start)

/-- The booking request (interface `BookingData`, sans `reason`). -/
structure BookingData where
  doctorId : Nat
  patientId : Nat
  start : Int
  stop : Int
deriving DecidableEq, Repr

/-- A fresh `_id` for a row created by `Appointment.create`: MongoDB
ObjectIds are unique, modelled as one more than the largest id in use. -/
def freshId (s : Store) : Nat :=
  (s.map (fun a => a.id)).foldr max 0 + 1

/-- The three validator calls of `bookAppointment` (source steps 1), in
source order, short-circuiting on the first failure. -/
def runValidators (clinicStart clinicEnd : Int) (data : BookingData)
    (now : Int) : Except ServiceError Unit :=
  match validateAppointmentTimes data.start data.stop with
  | .error e => .error e
  | .ok _ =>
    match validateWorkingHours clinicStart clinicEnd data.start data.stop with
    | .error e => .error e
    | .ok _ => validateNotInPast data.start now

/-- Source `bookAppointment`, sequential semantics: validate, check for an
overlap, and either fail with `AppointmentBookingError` (aborting the
transaction, so the collection is unchanged) or insert the new `BOOKED`
row and commit. -/
def bookAppointment (clinicStart clinicEnd : Int) (data : BookingData)
    (now : Int) (s : Store) : Except ServiceError Appointment × Store :=
  match runValidators clinicStart clinicEnd data now with
  | .error e => (.error e, s)
  | .ok _ =>
    match checkOverlap data.doctorId data.start data.stop s with
    | some _ => (.error (.appointmentBookingError ("Time slot not available")), s)
    | none =>
      let appt : Appointment :=
        { id := freshId s
          doctorId := data.doctorId
          patientId := data.patientId
          start := data.start
          stop := data.stop
          status := Status.BOOKED }
      (.ok appt, s ++ [appt])

/-- Mongoose `document.save()`: replace the row with the same `_id`. -/
def saveAppointment (a : Appointment) : Store → Store
  | [] => []
  | b :: rest =>
    if b.id = a.id then a :: rest else b :: saveAppointment a rest

/-- Source `cancelAppointment`: fetch by id, throw if absent, throw if
already cancelled, otherwise set the status to CANCELLED and save. -/
def cancelAppointment (appointmentId : Nat) (s : Store) :
    Except ServiceError Appointment × Store :=
  match s.find? (fun a => decide (a.id = appointmentId)) with
  | none => (.error (.plainError ("Appointment not found")), s)
  | some appointment =>
    if appointment.status = Status.CANCELLED then
      (.error (.plainError ("Appointment is already cancelled")), s)
    else
      let updated := { appointment with status := Status.CANCELLED }
      (.ok updated, saveAppointment updated s)

/-- Source `generateTimeSlots` while-loop with explicit fuel: `none` means
the loop has not left its `current < end` guard within `fuel` iterations.
Each iteration pushes `[current, current + slotMinutes*60000)` when that
slot ends by `end`, then advances `current` by `slotMinutes` minutes. -/
def generateTimeSlots (fuel : Nat) (current stop slotMinutes : Int) :
    Option (List TimeSlot) :=
  match fuel with
  | 0 => if current < stop then none else some []
  | fuel + 1 =>
    if current < stop then
      let slotEnd := current + slotMinutes * 60000
      match generateTimeSlots fuel (current + slotMinutes * 60000) stop slotMinutes with
      | none => none
      | some rest =>
        some (if slotEnd ≤ stop then ⟨current, slotEnd⟩ :: rest else rest)
    else
      some []

/-- Source `getAvailableSlots`: working-hours window of the day of `date`,
the indexed fetch of the BOOKED rows of the doctor starting in the window,
the full slot grid, and the filter keeping slots overlapping no fetched
row.  (The fetch also sorts by `start`, which cannot change the value of
the order-insensitive `some`-overlap test and is omitted.)  `none` models
a call that never returns because the slot-generation loop does not
terminate: the fuel given to the loop is shown below to be enough for
every `slotMinutes ≥ 1`, and for `slotMinutes ≤ 0` no finite fuel ends
the loop. -/
def getAvailableSlots (clinicStart clinicEnd : Int) (doctorId : Nat)
    (date : Int) (slotMinutes : Int) (s : Store) : Option (List TimeSlot) :=
  let startOfDay := setHoursZero date clinicStart
  let endOfDay := setHoursZero date clinicEnd
  let bookedAppointments := s.filter fun a =>
    decide (a.doctorId = doctorId) && decide (a.status = Status.BOOKED) &&
      decide (startOfDay ≤ a.start) && decide (a.start < endOfDay)
  match generateTimeSlots (endOfDay - startOfDay).toNat startOfDay endOfDay
      slotMinutes with
  | none => none
  | some allSlots =>
    some (allSlots.filter fun slot =>
      !(bookedAppointments.any fun a =>
        slotsOverlap slot.start slot.stop a.start a.stop))

/-- Source `getAvailability` controller (patientController): the
`slotMinutes` query parameter, when present, is parsed with `parseInt` and
passed to the service unchanged — no check rejects a non-positive value;
when absent, 30 is used. -/
def getAvailability (clinicStart clinicEnd : Int) (doctorId : Nat)
    (date : Int) (slotMinutesParam : Option Int) (s : Store) :
    Option (List TimeSlot) :=
  getAvailableSlots clinicStart clinicEnd doctorId date
    (match slotMinutesParam with
     | some m => m
     | none => 30) s

/-- One externally-invokable mutation of the appointment store. -/
inductive Op where
  | book (data : BookingData) (now : Int)
  | cancel (appointmentId : Nat)

/-- The store after executing one operation (a failed operation leaves the
store as the aborted transaction left it). -/
def stepOp (clinicStart clinicEnd : Int) (s : Store) : Op → Store
  | .book data now => (bookAppointment clinicStart clinicEnd data now s).2
  | .cancel appointmentId => (cancelAppointment appointmentId s).2

/-- The store after executing a sequence of operations. -/
def runOps (clinicStart clinicEnd : Int) (s : Store) (ops : List Op) : Store :=
  ops.foldl (stepOp clinicStart clinicEnd) s

/-- The protected invariant: no two BOOKED rows of one doctor have
overlapping half-open intervals. -/
def NoOverlaps (s : Store) : Prop :=
  s.Pairwise fun a b =>
    a.doctorId = b.doctorId → a.status = Status.BOOKED →
      b.status = Status.BOOKED →
        slotsOverlap a.start a.stop b.start b.stop = false

/-! ## Claim C2: the interval overlap predicate -/

/-- Claim C2: for intervals `[a1, a2)`, `[b1, b2)` with `a1 < a2` and
`b1 < b2`, `slotsOverlap` returns true iff `a1 < b2 ∧ b1 < a2`; partial
overlap, containment in either direction and exact coincidence return
true, while adjacency and disjoint ranges return false. -/
theorem slotsOverlap_characterization (a1 a2 b1 b2 : Int)
    (h1 : a1 < a2) (h2 : b1 < b2) :
    (slotsOverlap a1 a2 b1 b2 = true ↔ (a1 < b2 ∧ b1 < a2)) ∧
    (a2 = b1 ∨ b2 = a1 → slotsOverlap a1 a2 b1 b2 = false) ∧
    (b1 ≤ a1 → a2 ≤ b2 → slotsOverlap a1 a2 b1 b2 = true) ∧
    (a1 ≤ b1 → b2 ≤ a2 → slotsOverlap a1 a2 b1 b2 = true) ∧
    (a1 = b1 → a2 = b2 → slotsOverlap a1 a2 b1 b2 = true) ∧
    (a2 ≤ b1 ∨ b2 ≤ a1 → slotsOverlap a1 a2 b1 b2 = false) := by
  refine ⟨?_, ?_, ?_, ?_, ?_, ?_⟩ <;>
    simp only [slotsOverlap, Bool.and_eq_true, decide_eq_true_eq,
      Bool.and_eq_false_iff, decide_eq_false_iff_not] <;>
    omega

/-- Concrete instance of `slotsOverlap_characterization` at the partially
overlapping pair `[0, 2)`, `[1, 3)`. -/
theorem slotsOverlap_characterization_witness :
    (slotsOverlap 0 2 1 3 = true ↔ ((0 : Int) < 3 ∧ (1 : Int) < 2)) ∧
    ((2 : Int) = 1 ∨ (3 : Int) = 0 → slotsOverlap 0 2 1 3 = false) ∧
    ((1 : Int) ≤ 0 → (2 : Int) ≤ 3 → slotsOverlap 0 2 1 3 = true) ∧
    ((0 : Int) ≤ 1 → (3 : Int) ≤ 2 → slotsOverlap 0 2 1 3 = true) ∧
    ((0 : Int) = 1 → (2 : Int) = 3 → slotsOverlap 0 2 1 3 = true) ∧
    ((2 : Int) ≤ 1 ∨ (3 : Int) ≤ 0 → slotsOverlap 0 2 1 3 = false) :=
  slotsOverlap_characterization 0 2 1 3 (by decide) (by decide)

/-! ## Claim C7: the not-in-past validator -/

/-- Claim C7 is falsified at `start = now`: the source rejects only
`start < now`, so a start exactly equal to the current clock reading is
accepted, while the claim requires `start > now` to pass. -/
theorem validateNotInPast_at_now_counterexample :
    validateNotInPast 1728032400000 1728032400000 = .ok () ∧
    ¬((1728032400000 : Int) > 1728032400000) := by
  constructor
  · rfl
  · decide

/-- Claim C7 amended: `validateNotInPast` fails with the in-the-past
`ValidationError` exactly when `start < now`; a start equal to or after
the clock reading passes, so `start = now` is accepted, not rejected. -/
theorem validateNotInPast_amended (start now : Int) :
    (validateNotInPast start now =
        .error (.validationError ("Cannot book appointments in the past")) ↔
      start < now) ∧
    (validateNotInPast start now = .ok () ↔ now ≤ start) := by
  unfold validateNotInPast
  by_cases h : start < now
  · simp only [h, if_true]
    simp
    omega
  · simp only [h, if_false]
    simp
    omega

/-! ## Claim C5: failed bookings leave the store unchanged -/

/-- Claim C5: whenever `bookAppointment` fails — with a `ValidationError`
of any kind or with a conflict — the appointment collection is unchanged,
and a validator failure short-circuits the call with that error before any
storage access: the outcome is then the same for every store. -/
theorem book_failure_leaves_store_unchanged (clinicStart clinicEnd : Int)
    (data : BookingData) (now : Int) (s : Store) :
    (∀ e, (bookAppointment clinicStart clinicEnd data now s).1 = .error e →
      (bookAppointment clinicStart clinicEnd data now s).2 = s) ∧
    (∀ e, runValidators clinicStart clinicEnd data now = .error e →
      ∀ s2 : Store, bookAppointment clinicStart clinicEnd data now s2 =
        (.error e, s2)) := by
  constructor
  · intro e
    rcases hv : runValidators clinicStart clinicEnd data now with e2 | u
    · simp [bookAppointment, hv]
    · rcases ho : checkOverlap data.doctorId data.start data.stop s with _ | a
      · simp [bookAppointment, hv, ho]
      · simp [bookAppointment, hv, ho]
  · intro e hv s2
    simp [bookAppointment, hv]

/-- Concrete instance of `book_failure_leaves_store_unchanged`: a request
with `start = end` fails the range validator and bounces off every store,
leaving it untouched. -/
theorem book_failure_leaves_store_unchanged_witness :
    bookAppointment 9 17 ⟨1, 2, 1728032400000, 1728032400000⟩ 0
        [⟨5, 3, 4, 0, 10, Status.BOOKED⟩] =
      (.error (.validationError ("Start time must be before end time")),
        [⟨5, 3, 4, 0, 10, Status.BOOKED⟩]) :=
  (book_failure_leaves_store_unchanged 9 17
      ⟨1, 2, 1728032400000, 1728032400000⟩ 0 []).2
    (.validationError ("Start time must be before end time")) rfl
    [⟨5, 3, 4, 0, 10, Status.BOOKED⟩]

/-! ## Claim C9: cancelled rows never block a slot -/

/-- Claim C9: the overlap check consulted during booking considers only
BOOKED rows, so a valid request whose interval overlaps only CANCELLED
rows (no BOOKED row of the doctor overlaps it) is not rejected with a
conflict: it books successfully. -/
theorem cancelled_rows_never_block (clinicStart clinicEnd : Int)
    (data : BookingData) (now : Int) (s : Store)
    (hval : runValidators clinicStart clinicEnd data now = .ok ())
    (hnb : ∀ a ∈ s, a.doctorId = data.doctorId → a.status = Status.BOOKED →
      ¬(a.start < data.stop ∧ data.start < a.stop)) :
    ∃ appt, bookAppointment clinicStart clinicEnd data now s =
        (.ok appt, s ++ [appt]) ∧
      appt.doctorId = data.doctorId ∧ appt.patientId = data.patientId ∧
      appt.start = data.start ∧ appt.stop = data.stop ∧
      appt.status = Status.BOOKED := by
  have ho : checkOverlap data.doctorId data.start data.stop s = none := by
    unfold checkOverlap
    rw [List.find?_eq_none]
    intro a ha
    simp only [Bool.and_eq_true, decide_eq_true_eq]
    rintro ⟨⟨⟨hd, hs⟩, h1⟩, h2⟩
    exact hnb a ha hd hs ⟨h1, h2⟩
  refine ⟨⟨freshId s, data.doctorId, data.patientId, data.start, data.stop,
    Status.BOOKED⟩, ?_, rfl, rfl, rfl, rfl, rfl⟩
  simp [bookAppointment, hval, ho]

/-- Concrete instance of `cancelled_rows_never_block`: a CANCELLED row
covering exactly the requested range does not block the booking. -/
theorem cancelled_rows_never_block_witness :
    ∃ appt, bookAppointment 9 17 ⟨1, 2, 1728032400000, 1728034200000⟩
        1728000000000
        [⟨7, 1, 3, 1728032400000, 1728034200000, Status.CANCELLED⟩] =
        (.ok appt,
          [⟨7, 1, 3, 1728032400000, 1728034200000, Status.CANCELLED⟩] ++
            [appt]) ∧
      appt.doctorId = 1 ∧ appt.patientId = 2 ∧
      appt.start = 1728032400000 ∧ appt.stop = 1728034200000 ∧
      appt.status = Status.BOOKED :=
  cancelled_rows_never_block 9 17 ⟨1, 2, 1728032400000, 1728034200000⟩
    1728000000000
    [⟨7, 1, 3, 1728032400000, 1728034200000, Status.CANCELLED⟩]
    rfl (by decide)

/-! ## Claim C6: the cancellation handler -/

/-- Helper: with pairwise-distinct ids, `findById` returns the member with
the requested id. -/
lemma find?_id_eq_some {s : Store} {i : Nat} {a : Appointment}
    (hnodup : (s.map fun b => b.id).Nodup) (ha : a ∈ s) (hid : a.id = i) :
    s.find? (fun b => decide (b.id = i)) = some a := by
  induction s with
  | nil => cases ha
  | cons b rest ih =>
    simp only [List.map_cons, List.nodup_cons] at hnodup
    rcases List.mem_cons.mp ha with rfl | hmem
    · exact List.find?_cons_of_pos _ (by simp [hid])
    · have hbne : ¬(b.id = i) := by
        intro h
        exact hnodup.1 (by
          rw [h, ← hid]
          exact List.mem_map_of_mem _ hmem)
      rw [List.find?_cons_of_neg _ (by simp [hbne])]
      exact ih hnodup.2 hmem

/-- Helper: every member of the saved collection is an old member or the
saved row. -/
lemma saveAppointment_mem {a x : Appointment} :
    ∀ {l : Store}, x ∈ saveAppointment a l → x ∈ l ∨ x = a := by
  intro l
  induction l with
  | nil => intro hx; cases hx
  | cons b rest ih =>
    intro hx
    unfold saveAppointment at hx
    by_cases h : b.id = a.id
    · rw [if_pos h] at hx
      rcases List.mem_cons.mp hx with rfl | hx
      · exact Or.inr rfl
      · exact Or.inl (List.mem_cons_of_mem _ hx)
    · rw [if_neg h] at hx
      rcases List.mem_cons.mp hx with rfl | hx
      · exact Or.inl (List.mem_cons_self _ _)
      · rcases ih hx with hx | hx
        · exact Or.inl (List.mem_cons_of_mem _ hx)
        · exact Or.inr hx

/-- Helper: rows with a different id survive a save unchanged. -/
lemma saveAppointment_mem_of_ne {a b : Appointment} :
    ∀ {l : Store}, b ∈ l → b.id ≠ a.id → b ∈ saveAppointment a l := by
  intro l
  induction l with
  | nil => intro hb; cases hb
  | cons c rest ih =>
    intro hb hne
    unfold saveAppointment
    rcases List.mem_cons.mp hb with rfl | hb
    · rw [if_neg hne]
      exact List.mem_cons_self _ _
    · by_cases h : c.id = a.id
      · rw [if_pos h]
        exact List.mem_cons_of_mem _ hb
      · rw [if_neg h]
        exact List.mem_cons_of_mem _ (ih hb hne)

/-- Helper: the saved row is in the saved collection whenever some old row
carried its id. -/
lemma saveAppointment_self {a : Appointment} :
    ∀ {l : Store}, (∃ b ∈ l, b.id = a.id) → a ∈ saveAppointment a l := by
  intro l
  induction l with
  | nil => rintro ⟨b, hb, _⟩; cases hb
  | cons c rest ih =>
    rintro ⟨b, hb, hid⟩
    unfold saveAppointment
    rcases List.mem_cons.mp hb with rfl | hb
    · rw [if_pos hid]
      exact List.mem_cons_self _ _
    · by_cases h : c.id = a.id
      · rw [if_pos h]
        exact List.mem_cons_self _ _
      · rw [if_neg h]
        exact List.mem_cons_of_mem _ (ih ⟨b, hb, hid⟩)

/-- Claim C6: `cancelAppointment` fails with the not-found error when no
row has the id (store unchanged), fails with the already-cancelled error
when the row is already CANCELLED (store unchanged), and otherwise returns
the row with status CANCELLED, persists it, and keeps every other row. -/
theorem cancelAppointment_spec (s : Store) (i : Nat)
    (hnodup : (s.map fun b => b.id).Nodup) :
    ((∀ a ∈ s, a.id ≠ i) →
      cancelAppointment i s = (.error (.plainError ("Appointment not found")), s)) ∧
    (∀ a ∈ s, a.id = i → a.status = Status.CANCELLED →
      cancelAppointment i s =
        (.error (.plainError ("Appointment is already cancelled")), s)) ∧
    (∀ a ∈ s, a.id = i → a.status ≠ Status.CANCELLED →
      (cancelAppointment i s).1 = .ok { a with status := Status.CANCELLED } ∧
      { a with status := Status.CANCELLED } ∈ (cancelAppointment i s).2 ∧
      ∀ b ∈ s, b.id ≠ i → b ∈ (cancelAppointment i s).2) := by
  refine ⟨?_, ?_, ?_⟩
  · intro h
    have hf : s.find? (fun b => decide (b.id = i)) = none :=
      List.find?_eq_none.mpr (by
        intro a ha
        simp only [decide_eq_true_eq]
        exact h a ha)
    simp [cancelAppointment, hf]
  · intro a ha hid hst
    have hf := find?_id_eq_some hnodup ha hid
    simp [cancelAppointment, hf, hst]
  · intro a ha hid hst
    have hf := find?_id_eq_some hnodup ha hid
    refine ⟨by simp [cancelAppointment, hf, hst], ?_, ?_⟩
    · have : (cancelAppointment i s).2 =
          saveAppointment { a with status := Status.CANCELLED } s := by
        simp [cancelAppointment, hf, hst]
      rw [this]
      exact saveAppointment_self ⟨a, ha, by simp [hid]⟩
    · intro b hb hbne
      have : (cancelAppointment i s).2 =
          saveAppointment { a with status := Status.CANCELLED } s := by
        simp [cancelAppointment, hf, hst]
      rw [this]
      exact saveAppointment_mem_of_ne hb (by simp [hid, hbne])

/-- Concrete instances of `cancelAppointment_spec`: an unknown id is
NotFound, an already-CANCELLED row is rejected with the store unchanged,
and a BOOKED row is cancelled and persisted. -/
theorem cancelAppointment_spec_witness :
    (cancelAppointment 3
        [⟨1, 1, 1, 0, 10, Status.BOOKED⟩, ⟨2, 1, 2, 20, 30, Status.CANCELLED⟩] =
      (.error (.plainError ("Appointment not found")),
        [⟨1, 1, 1, 0, 10, Status.BOOKED⟩, ⟨2, 1, 2, 20, 30, Status.CANCELLED⟩])) ∧
    (cancelAppointment 2
        [⟨1, 1, 1, 0, 10, Status.BOOKED⟩, ⟨2, 1, 2, 20, 30, Status.CANCELLED⟩] =
      (.error (.plainError ("Appointment is already cancelled")),
        [⟨1, 1, 1, 0, 10, Status.BOOKED⟩, ⟨2, 1, 2, 20, 30, Status.CANCELLED⟩])) ∧
    ((cancelAppointment 1
        [⟨1, 1, 1, 0, 10, Status.BOOKED⟩, ⟨2, 1, 2, 20, 30, Status.CANCELLED⟩]).1 =
      .ok ⟨1, 1, 1, 0, 10, Status.CANCELLED⟩ ∧
      (⟨1, 1, 1, 0, 10, Status.CANCELLED⟩ : Appointment) ∈
        (cancelAppointment 1
          [⟨1, 1, 1, 0, 10, Status.BOOKED⟩, ⟨2, 1, 2, 20, 30, Status.CANCELLED⟩]).2 ∧
      ∀ b ∈ [(⟨1, 1, 1, 0, 10, Status.BOOKED⟩ : Appointment),
          ⟨2, 1, 2, 20, 30, Status.CANCELLED⟩], b.id ≠ 1 →
        b ∈ (cancelAppointment 1
          [⟨1, 1, 1, 0, 10, Status.BOOKED⟩, ⟨2, 1, 2, 20, 30, Status.CANCELLED⟩]).2) :=
  ⟨(cancelAppointment_spec
      [⟨1, 1, 1, 0, 10, Status.BOOKED⟩, ⟨2, 1, 2, 20, 30, Status.CANCELLED⟩] 3
      (by decide)).1 (by decide),
   (cancelAppointment_spec
      [⟨1, 1, 1, 0, 10, Status.BOOKED⟩, ⟨2, 1, 2, 20, 30, Status.CANCELLED⟩] 2
      (by decide)).2.1 ⟨2, 1, 2, 20, 30, Status.CANCELLED⟩ (by decide) rfl rfl,
   (cancelAppointment_spec
      [⟨1, 1, 1, 0, 10, Status.BOOKED⟩, ⟨2, 1, 2, 20, 30, Status.CANCELLED⟩] 1
      (by decide)).2.2 ⟨1, 1, 1, 0, 10, Status.BOOKED⟩ (by decide) rfl
      (by decide)⟩

/-! ## Claim C8: the working-hours validator -/

/-- Helper: the working-hours validator passes iff the start is at or
after the opening hour and the end, truncated to the minute, is at or
before the closing hour — only hour/minute components are consulted. -/
lemma validateWorkingHours_ok_iff (clinicStart clinicEnd start stop : Int) :
    validateWorkingHours clinicStart clinicEnd start stop = .ok () ↔
      (clinicStart * 60 ≤ minuteOfDay start ∧
        minuteOfDay stop ≤ clinicEnd * 60) := by
  unfold validateWorkingHours hourOf minuteOf minuteOfDay msOfDay
  dsimp only
  split_ifs with h1 h2
  · simp only [reduceCtorEq, false_iff]
    omega
  · simp only [reduceCtorEq, false_iff]
    omega
  · simp only [true_iff]
    omega

/-- Claim C8 is falsified by a sub-minute appointment at the closing
hour: for clinic hours 09:00–17:00, the attempt 17:00:00.500–17:00:01.000
(same day, `start < end`) has its start hour/minute equal to 17:00 —
outside the half-open window `[09:00, 17:00)` — yet the validator accepts
it, because it compares only hour and minute components and the end's
minute component is 0. -/
theorem validateWorkingHours_close_hour_counterexample :
    validateWorkingHours 9 17 1728061200500 1728061201000 = .ok () ∧
    (1728061200500 : Int) < 1728061201000 ∧
    dayStart 1728061200500 = dayStart 1728061201000 ∧
    hourOf 1728061200500 = 17 ∧ minuteOf 1728061200500 = 0 ∧
    ¬(9 * 60 ≤ minuteOfDay 1728061200500 ∧
      minuteOfDay 1728061200500 < 17 * 60) :=
  ⟨rfl, by decide, by decide, by decide, by decide, by decide⟩

/-- Claim C8 amended: for `start < end` on the same day and
`clinicOpen ≤ clinicClose`, the working-hours validator fails exactly when
the start's hour/minute is outside `[clinicOpen:00, clinicClose:00)` or
the end's hour/minute is past `clinicClose:00` — except that an
appointment contained in the one minute beginning exactly at
`clinicClose:00` is accepted (only hour/minute components are compared).
In particular 16:45–17:15 is rejected and 16:30–17:00 is accepted. -/
theorem validateWorkingHours_amended (clinicStart clinicEnd start stop : Int)
    (hce : clinicStart ≤ clinicEnd) (hday : dayStart start = dayStart stop)
    (hlt : start < stop) :
    ((validateWorkingHours clinicStart clinicEnd start stop = .ok ()) ↔
      ((clinicStart * 60 ≤ minuteOfDay start ∧
          minuteOfDay start < clinicEnd * 60 ∧
          minuteOfDay stop ≤ clinicEnd * 60) ∨
        (minuteOfDay start = clinicEnd * 60 ∧
          minuteOfDay stop = clinicEnd * 60))) ∧
    (validateWorkingHours 9 17 1728060300000 1728062100000 ≠ .ok ()) ∧
    (validateWorkingHours 9 17 1728059400000 1728061200000 = .ok ()) := by
  have hmono : minuteOfDay start ≤ minuteOfDay stop := by
    unfold minuteOfDay msOfDay
    unfold dayStart msOfDay at hday
    omega
  refine ⟨?_, ?_, ?_⟩
  · rw [validateWorkingHours_ok_iff]
    unfold minuteOfDay msOfDay at *
    constructor
    · intro h
      omega
    · intro h
      omega
  · intro h
    rw [validateWorkingHours_ok_iff] at h
    unfold minuteOfDay msOfDay at h
    omega
  · rw [validateWorkingHours_ok_iff]
    unfold minuteOfDay msOfDay
    omega

/-- Concrete instance of `validateWorkingHours_amended` at the accepted
boundary attempt 16:30–17:00 of a 09:00–17:00 clinic day. -/
theorem validateWorkingHours_amended_witness :
    ((validateWorkingHours 9 17 1728059400000 1728061200000 = .ok ()) ↔
      ((9 * 60 ≤ minuteOfDay 1728059400000 ∧
          minuteOfDay 1728059400000 < 17 * 60 ∧
          minuteOfDay 1728061200000 ≤ 17 * 60) ∨
        (minuteOfDay 1728059400000 = 17 * 60 ∧
          minuteOfDay 1728061200000 = 17 * 60))) ∧
    (validateWorkingHours 9 17 1728060300000 1728062100000 ≠ .ok ()) ∧
    (validateWorkingHours 9 17 1728059400000 1728061200000 = .ok ()) :=
  validateWorkingHours_amended 9 17 1728059400000 1728061200000 (by decide)
    (by decide) (by decide)

/-! ## The slot-generation loop -/

/-- Helper: for a positive slot duration and enough fuel, the loop
terminates and produces the full grid: the `i`-th slot starts at
`current + i * slotMinutes*60000`, and exactly the slots that end by
`stop` survive (the trailing partial slot is discarded). -/
lemma generateTimeSlots_eq_grid :
    ∀ (fuel : Nat) (c e d : Int), 1 ≤ d → (e - c).toNat ≤ fuel →
      generateTimeSlots fuel c e d =
        some ((List.range ((e - c).toNat / (d * 60000).toNat)).map
          (fun i => ⟨c + i * (d * 60000), c + i * (d * 60000) + d * 60000⟩)) := by
  intro fuel
  induction fuel with
  | zero =>
    intro c e d hd hfuel
    unfold generateTimeSlots
    rw [if_neg (by omega)]
    have h0 : (e - c).toNat = 0 := by omega
    rw [h0]
    simp
  | succ n ih =>
    intro c e d hd hfuel
    unfold generateTimeSlots
    by_cases hce : c < e
    · rw [if_pos hce]
      dsimp only
      rw [ih (c + d * 60000) e d hd (by omega)]
      dsimp only
      by_cases hfit : c + d * 60000 ≤ e
      · rw [if_pos hfit]
        have hcount : (e - c).toNat / (d * 60000).toNat =
            (e - (c + d * 60000)).toNat / (d * 60000).toNat + 1 := by
          have h1 : (e - c).toNat =
              (e - (c + d * 60000)).toNat + (d * 60000).toNat := by omega
          rw [h1]
          exact Nat.add_div_right _ (by omega)
        rw [hcount, List.range_succ_eq_map]
        simp only [List.map_cons, List.map_map, Option.some.injEq,
          Nat.cast_zero, zero_mul, add_zero]
        congr 1
        apply List.map_congr_left
        intro i _
        simp only [Function.comp_apply, Nat.succ_eq_add_one,
          TimeSlot.mk.injEq]
        refine ⟨by push_cast; ring, by push_cast; ring⟩
      · rw [if_neg hfit]
        have h1 : (e - c).toNat / (d * 60000).toNat = 0 :=
          Nat.div_eq_of_lt (by omega)
        have h2 : (e - (c + d * 60000)).toNat = 0 := by omega
        rw [h1, h2]
        simp
    · rw [if_neg hce]
      have h0 : (e - c).toNat = 0 := by omega
      rw [h0]
      simp

/-- Helper: for a non-positive slot duration the guard `current < end`
never becomes false — the loop runs out of any finite fuel. -/
lemma generateTimeSlots_nonpos_none :
    ∀ (fuel : Nat) (c e d : Int), d ≤ 0 → c < e →
      generateTimeSlots fuel c e d = none := by
  intro fuel
  induction fuel with
  | zero =>
    intro c e d hd hce
    unfold generateTimeSlots
    rw [if_pos hce]
  | succ n ih =>
    intro c e d hd hce
    unfold generateTimeSlots
    rw [if_pos hce]
    dsimp only
    rw [ih (c + d * 60000) e d hd (by omega)]

/-! ## Claim C10: termination of the slot-generation loop -/

/-- Claim C10: for `slotMinutes ≥ 1` the loop cursor strictly advances
and the loop terminates once given fuel covering the window, while for a
non-positive `slotMinutes` the cursor never advances and no finite fuel
ends the loop; the public availability endpoint passes any provided
`slotMinutes` to the service unchecked, so termination is guaranteed only
under the precondition `slotMinutes ≥ 1`. -/
theorem slot_generation_termination (c e d : Int) (fuel : Nat) :
    (1 ≤ d → c < c + d * 60000) ∧
    (1 ≤ d → (e - c).toNat ≤ fuel →
      (generateTimeSlots fuel c e d).isSome = true) ∧
    (d ≤ 0 → c + d * 60000 ≤ c) ∧
    (d ≤ 0 → c < e → generateTimeSlots fuel c e d = none) ∧
    (∀ (clinicStart clinicEnd : Int) (doctorId : Nat) (date : Int)
      (s : Store) (m : Int),
      getAvailability clinicStart clinicEnd doctorId date (some m) s =
        getAvailableSlots clinicStart clinicEnd doctorId date m s) := by
  refine ⟨by omega, ?_, by omega, ?_, ?_⟩
  · intro hd hf
    rw [generateTimeSlots_eq_grid fuel c e d hd hf]
    rfl
  · intro hd hce
    exact generateTimeSlots_nonpos_none fuel c e d hd hce
  · intro clinicStart clinicEnd doctorId date s m
    rfl

/-- Concrete instances of `slot_generation_termination`: a one-hour window
with 30-minute slots terminates, and a zero slot duration never leaves the
loop guard. -/
theorem slot_generation_termination_witness :
    ((0 : Int) < 0 + 30 * 60000) ∧
    ((generateTimeSlots 3600000 0 3600000 30).isSome = true) ∧
    ((0 : Int) + 0 * 60000 ≤ 0) ∧
    (generateTimeSlots 3 0 1 0 = none) :=
  ⟨(slot_generation_termination 0 3600000 30 3600000).1 (by decide),
   (slot_generation_termination 0 3600000 30 3600000).2.1 (by decide)
     (by decide),
   (slot_generation_termination 0 1 0 3).2.2.1 (by decide),
   (slot_generation_termination 0 1 0 3).2.2.2.1 (by decide) (by decide)⟩

/-! ## Claim C4: the availability calculator -/

/-- Claim C4: for a positive slot duration, `getAvailableSlots` returns
(rather than looping) exactly those slots of the full grid — the
contiguous `slotMinutes`-sized slots covering the working-hours window,
the trailing partial slot discarded — that overlap none of the fetched
BOOKED rows of the doctor starting within the window; the result is in
chronological order (and may be empty: an empty list, not an error). -/
theorem getAvailableSlots_spec (clinicStart clinicEnd : Int)
    (doctorId : Nat) (date : Int) (slotMinutes : Int) (s : Store)
    (hd : 1 ≤ slotMinutes) :
    ∃ grid result,
      generateTimeSlots
          (setHoursZero date clinicEnd - setHoursZero date clinicStart).toNat
          (setHoursZero date clinicStart) (setHoursZero date clinicEnd)
          slotMinutes = some grid ∧
      grid = (List.range
          ((setHoursZero date clinicEnd - setHoursZero date clinicStart).toNat /
            (slotMinutes * 60000).toNat)).map
          (fun i => ⟨setHoursZero date clinicStart + i * (slotMinutes * 60000),
            setHoursZero date clinicStart + i * (slotMinutes * 60000) +
              slotMinutes * 60000⟩) ∧
      getAvailableSlots clinicStart clinicEnd doctorId date slotMinutes s =
        some result ∧
      (∀ sl, sl ∈ result ↔ (sl ∈ grid ∧ ∀ a ∈ s,
        a.doctorId = doctorId → a.status = Status.BOOKED →
        setHoursZero date clinicStart ≤ a.start →
        a.start < setHoursZero date clinicEnd →
        slotsOverlap sl.start sl.stop a.start a.stop = false)) ∧
      List.Pairwise (fun x y : TimeSlot => x.start < y.start) result := by
  have hgrid := generateTimeSlots_eq_grid
    (setHoursZero date clinicEnd - setHoursZero date clinicStart).toNat
    (setHoursZero date clinicStart) (setHoursZero date clinicEnd)
    slotMinutes hd le_rfl
  refine ⟨_, ((List.range
      ((setHoursZero date clinicEnd - setHoursZero date clinicStart).toNat /
        (slotMinutes * 60000).toNat)).map
      (fun (i : Nat) =>
        (⟨setHoursZero date clinicStart + (i : Int) * (slotMinutes * 60000),
        setHoursZero date clinicStart + (i : Int) * (slotMinutes * 60000) +
          slotMinutes * 60000⟩ : TimeSlot))).filter
      (fun slot => !((s.filter (fun a =>
          decide (a.doctorId = doctorId) && decide (a.status = Status.BOOKED) &&
            decide (setHoursZero date clinicStart ≤ a.start) &&
            decide (a.start < setHoursZero date clinicEnd))).any
        (fun a => slotsOverlap slot.start slot.stop a.start a.stop))),
    hgrid, rfl, ?_, ?_, ?_⟩
  · unfold getAvailableSlots
    dsimp only
    rw [hgrid]
  · intro sl
    simp only [List.mem_filter, List.any_eq_false, Bool.not_eq_true',
      Bool.and_eq_true, decide_eq_true_eq]
    constructor
    · rintro ⟨hg, hall⟩
      exact ⟨hg, fun a ha hdoc hst hge hlt =>
        Bool.eq_false_iff.mpr (hall a ⟨ha, ⟨⟨⟨hdoc, hst⟩, hge⟩, hlt⟩⟩)⟩
    · rintro ⟨hg, hall⟩
      refine ⟨hg, fun a ha => ?_⟩
      obtain ⟨has, ⟨⟨hdoc, hst⟩, hge⟩, hlt⟩ := ha
      exact Bool.eq_false_iff.mp (hall a has hdoc hst hge hlt)
  · refine List.Pairwise.sublist (List.filter_sublist _) ?_
    rw [List.pairwise_map]
    refine List.Pairwise.imp ?_ (List.pairwise_lt_range _)
    intro i j hij
    have hD : (0 : Int) < slotMinutes * 60000 := by omega
    have hlt : (i : Int) * (slotMinutes * 60000) <
        (j : Int) * (slotMinutes * 60000) :=
      mul_lt_mul_of_pos_right (by exact_mod_cast hij) hD
    dsimp only
    omega

/-- Concrete instance of `getAvailableSlots_spec`: a one-hour clinic day
(hours 0–1) with 30-minute slots and one BOOKED appointment occupying the
first slot. -/
theorem getAvailableSlots_spec_witness :
    ∃ grid result,
      generateTimeSlots (setHoursZero 0 1 - setHoursZero 0 0).toNat
          (setHoursZero 0 0) (setHoursZero 0 1) 30 = some grid ∧
      grid = (List.range
          ((setHoursZero 0 1 - setHoursZero 0 0).toNat /
            ((30 : Int) * 60000).toNat)).map
          (fun (i : Nat) => ⟨setHoursZero 0 0 + (i : Int) * (30 * 60000),
            setHoursZero 0 0 + (i : Int) * (30 * 60000) + 30 * 60000⟩) ∧
      getAvailableSlots 0 1 1 0 30 [⟨1, 1, 1, 0, 1800000, Status.BOOKED⟩] =
        some result ∧
      (∀ sl, sl ∈ result ↔ (sl ∈ grid ∧
        ∀ a ∈ [(⟨1, 1, 1, 0, 1800000, Status.BOOKED⟩ : Appointment)],
        a.doctorId = 1 → a.status = Status.BOOKED →
        setHoursZero 0 0 ≤ a.start → a.start < setHoursZero 0 1 →
        slotsOverlap sl.start sl.stop a.start a.stop = false)) ∧
      List.Pairwise (fun x y : TimeSlot => x.start < y.start) result :=
  getAvailableSlots_spec 0 1 1 0 30 [⟨1, 1, 1, 0, 1800000, Status.BOOKED⟩]
    (by decide)

/-! ## Claim C1: the global no-overlap invariant -/

/-- Helper: the pairwise no-overlap invariant survives replacing a row by
a CANCELLED row. -/
lemma saveAppointment_cancelled_noOverlaps {a : Appointment}
    (hst : a.status = Status.CANCELLED) :
    ∀ {l : Store}, NoOverlaps l → NoOverlaps (saveAppointment a l) := by
  intro l
  induction l with
  | nil => intro h; exact h
  | cons b rest ih =>
    intro h
    rcases List.pairwise_cons.mp h with ⟨hb, hrest⟩
    unfold saveAppointment
    by_cases hid : b.id = a.id
    · rw [if_pos hid]
      refine List.pairwise_cons.mpr ⟨?_, hrest⟩
      intro x _ _ hba
      rw [hst] at hba
      cases hba
    · rw [if_neg hid]
      refine List.pairwise_cons.mpr ⟨?_, ih hrest⟩
      intro x hx
      rcases saveAppointment_mem hx with hx | rfl
      · exact hb x hx
      · intro _ _ hba
        rw [hst] at hba
        cases hba

/-- Helper: one `bookAppointment` call preserves the invariant. -/
lemma bookAppointment_noOverlaps (clinicStart clinicEnd : Int)
    (data : BookingData) (now : Int) (s : Store) (h : NoOverlaps s) :
    NoOverlaps (bookAppointment clinicStart clinicEnd data now s).2 := by
  rcases hv : runValidators clinicStart clinicEnd data now with e | u
  · simpa [bookAppointment, hv] using h
  · rcases ho : checkOverlap data.doctorId data.start data.stop s with _ | a
    · have hnone := List.find?_eq_none.mp ho
      simp only [bookAppointment, hv, ho]
      unfold NoOverlaps at h ⊢
      rw [List.pairwise_append]
      refine ⟨h, List.pairwise_singleton _ _, ?_⟩
      intro a ha b hb hdoc hba _
      rw [List.mem_singleton] at hb
      subst hb
      by_contra hov
      apply hnone a ha
      simp only [Bool.and_eq_true, decide_eq_true_eq]
      have hov' : slotsOverlap a.start a.stop data.start data.stop = true := by
        revert hov
        cases slotsOverlap a.start a.stop data.start data.stop
        · intro hov
          exact absurd rfl hov
        · intro _
          rfl
      simp only [slotsOverlap, Bool.and_eq_true, decide_eq_true_eq] at hov'
      exact ⟨⟨⟨hdoc, hba⟩, hov'.1⟩, hov'.2⟩
    · simpa [bookAppointment, hv, ho] using h

/-- Helper: one `cancelAppointment` call preserves the invariant. -/
lemma cancelAppointment_noOverlaps (i : Nat) (s : Store)
    (h : NoOverlaps s) : NoOverlaps (cancelAppointment i s).2 := by
  rcases hf : s.find? (fun a => decide (a.id = i)) with _ | b
  · simpa [cancelAppointment, hf] using h
  · by_cases hbc : b.status = Status.CANCELLED
    · simpa [cancelAppointment, hf, hbc] using h
    · simp only [cancelAppointment, hf, hbc]
      exact saveAppointment_cancelled_noOverlaps rfl h

/-- Claim C1: starting from a store satisfying the invariant, any sequence
of `book()` / `cancel()` calls keeps, at every point, the BOOKED rows of
every doctor pairwise non-overlapping under half-open semantics (every
intermediate store is itself `runOps` of a prefix, so the statement covers
every point of the execution); moreover a successful `book()` implies the
in-transaction `checkOverlap` found no BOOKED conflict and only appended
the new row, and `cancel()` never enlarges the BOOKED set. -/
theorem booked_rows_never_overlap (clinicStart clinicEnd : Int)
    (s0 : Store) (ops : List Op) (h0 : NoOverlaps s0) :
    NoOverlaps (runOps clinicStart clinicEnd s0 ops) ∧
    (∀ (data : BookingData) (now : Int) (s s2 : Store) (appt : Appointment),
      bookAppointment clinicStart clinicEnd data now s = (.ok appt, s2) →
      checkOverlap data.doctorId data.start data.stop s = none ∧
        s2 = s ++ [appt]) ∧
    (∀ (i : Nat) (s : Store) (a : Appointment),
      a ∈ (cancelAppointment i s).2 → a.status = Status.BOOKED → a ∈ s) := by
  refine ⟨?_, ?_, ?_⟩
  · induction ops generalizing s0 with
    | nil => exact h0
    | cons op rest ih =>
      have hstep : NoOverlaps (stepOp clinicStart clinicEnd s0 op) := by
        cases op with
        | book data now =>
          exact bookAppointment_noOverlaps clinicStart clinicEnd data now s0 h0
        | cancel i => exact cancelAppointment_noOverlaps i s0 h0
      exact ih _ hstep
  · intro data now s s2 appt hb
    rcases hv : runValidators clinicStart clinicEnd data now with e | u
    · simp [bookAppointment, hv] at hb
    · rcases ho : checkOverlap data.doctorId data.start data.stop s with _ | a
      · simp only [bookAppointment, hv, ho, Prod.mk.injEq] at hb
        obtain ⟨h1, h2⟩ := hb
        injection h1 with h1
        subst h1
        exact ⟨rfl, h2.symm⟩
      · simp [bookAppointment, hv, ho] at hb
  · intro i s a ha hb
    rcases hf : s.find? (fun x => decide (x.id = i)) with _ | b
    · simpa [cancelAppointment, hf] using ha
    · by_cases hbc : b.status = Status.CANCELLED
      · simpa [cancelAppointment, hf, hbc] using ha
      · simp only [cancelAppointment, hf, hbc] at ha
        rcases saveAppointment_mem ha with h | rfl
        · exact h
        · simp at hb

/-- Concrete instance of `booked_rows_never_overlap`: from the empty store,
book 09:00–09:30, attempt the overlapping 09:15–09:45, then cancel the
first appointment. -/
theorem booked_rows_never_overlap_witness :
    NoOverlaps (runOps 9 17 []
      [Op.book ⟨1, 2, 1728032400000, 1728034200000⟩ 1728000000000,
       Op.book ⟨1, 3, 1728033300000, 1728035100000⟩ 1728000000000,
       Op.cancel 1]) ∧
    (∀ (data : BookingData) (now : Int) (s s2 : Store) (appt : Appointment),
      bookAppointment 9 17 data now s = (.ok appt, s2) →
      checkOverlap data.doctorId data.start data.stop s = none ∧
        s2 = s ++ [appt]) ∧
    (∀ (i : Nat) (s : Store) (a : Appointment),
      a ∈ (cancelAppointment i s).2 → a.status = Status.BOOKED → a ∈ s) :=
  booked_rows_never_overlap 9 17 []
    [Op.book ⟨1, 2, 1728032400000, 1728034200000⟩ 1728000000000,
     Op.book ⟨1, 3, 1728033300000, 1728035100000⟩ 1728000000000,
     Op.cancel 1] List.Pairwise.nil
